import Mathlib

/-
Shallow embedding of src/App.py (立川グルメマップ): the load/normalize path,
the filtered-view safe-commit path, the geocode fallback, and the append
engine. Cell values of the dataframe are modelled by `CellVal`; a dataframe
is a `Table` (ordered header plus rows of cells, aligned positionally).
-/

namespace TachikawaApp

/-- A cell of the dataframe: a string, a number (Python ints/floats modelled
as `Int`), or the missing value NaN (pandas `None`/`NaN`). -/
inductive CellVal where
  | str (t : String)
  | num (x : Int)
  | nan
deriving DecidableEq

/-- A dataframe: an ordered header of column names and rows of cells aligned
with the header by position. -/
structure Table where
  header : List String
  rows : List (List CellVal)
deriving DecidableEq

/-- App.py line 89: the master column order
`["店名","ジャンル","エリア","評価","メモ","住所","登録日","緯度","経度"]`. -/
def expected_columns : List String :=
  ["店名", "ジャンル", "エリア", "評価", "メモ", "住所", "登録日", "緯度", "経度"]

/-- Python truthiness of a cell value: an empty string and the number 0 are
falsy; NaN is truthy in Python. -/
def truthy : CellVal → Bool
  | .str t => !(t == "")
  | .num x => !(x == 0)
  | .nan => true

/-- Index of a column name in a header (first occurrence). -/
def colIdx (header : List String) (c : String) : Option Nat :=
  header.findIdx? (fun h => h == c)

/-- Value of column `c` in row `r` laid out along `header`; `none` when the
column is absent. -/
def colVal (header : List String) (r : List CellVal) (c : String) : Option CellVal :=
  match colIdx header c with
  | some i => r.get? i
  | none => none

/-- `fillna("")` applied to one reindexed cell: a missing column or a NaN cell
becomes the empty string (App.py line 223). -/
def fillEmpty : Option CellVal → CellVal
  | some .nan => .str ""
  | some v => v
  | none => .str ""

/-- App.py lines 220-223: `save_df.reindex(columns=expected_columns)` followed
by `.fillna("")` — keep exactly the master columns in master order, synthesize
missing ones, and replace NaN by the empty string. -/
def reindexFill (t : Table) : Table :=
  { header := expected_columns,
    rows := t.rows.map (fun r => expected_columns.map (fun c => fillEmpty (colVal t.header r c))) }

/-- App.py line 227: `update_values = [final_save_df.columns.tolist()] +
final_save_df.values.tolist()` — the header row followed by the data rows. -/
def updateValues (t : Table) : List (List CellVal) :=
  (t.header.map CellVal.str) :: t.rows

/-- One iteration of App.py lines 94-96: `if col not in df.columns:
df[col] = None` — append the column at the end, filled with NaN, when it is
absent. -/
def addEmptyCol (acc : Table) (c : String) : Table :=
  if c ∈ acc.header then acc
  else { header := acc.header ++ [c], rows := acc.rows.map (fun r => r ++ [CellVal.nan]) }

/-- App.py lines 94-96: `for col in ["緯度","経度","住所"]: if col not in
df.columns: df[col] = None`. -/
def addCoordCols (t : Table) : Table :=
  List.foldl addEmptyCol t ["緯度", "経度", "住所"]

/-- App.py lines 85-96: the load path. `df = pd.DataFrame(data)`; when the
sheet yields no records the dataframe is replaced by the empty frame over
`expected_columns` (lines 91-92); then the three coordinate/address columns
are synthesized when absent (lines 94-96). -/
def loadTable (raw : Table) : Table :=
  let df := if raw.rows.isEmpty then { header := expected_columns, rows := [] } else raw
  addCoordCols df

/-- Does `needle` occur at the start of `hay`? (character lists) -/
def charsStartWith : List Char → List Char → Bool
  | [], _ => true
  | _ :: _, [] => false
  | a :: as, b :: bs => a == b && charsStartWith as bs

/-- Does `needle` occur as a contiguous run anywhere in `hay`? -/
def charsContain (needle : List Char) : List Char → Bool
  | [] => needle.isEmpty
  | h :: t => charsStartWith needle (h :: t) || charsContain needle t

/-- Python's `needle in hay` substring test. -/
def strContains (hay needle : String) : Bool :=
  charsContain needle.data hay.data

/-- Lower-case a string (Python `case=False` matching). -/
def lowerStr (s : String) : String :=
  s.map Char.toLower

/-- `astype(str)` of one cell: pandas stringifies NaN as `"nan"`. -/
def cellStr : CellVal → String
  | .str t => t
  | .num x => toString x
  | .nan => "nan"

/-- App.py line 165: one row of the mask — does any stringified cell of the
row (the leading `削除` boolean column included) contain the query,
case-insensitively? -/
def rowMatches (q : String) (flag : Bool) (r : List CellVal) : Bool :=
  ((if flag then "True" else "False") :: r.map cellStr).any
    (fun s => strContains (lowerStr s) (lowerStr q))

/-- The editable view: the record columns plus, per row, the leading `削除`
(marked-for-deletion) boolean inserted at App.py line 161. -/
structure View where
  header : List String
  rows : List (Bool × List CellVal)
deriving DecidableEq

/-- App.py lines 159-166: copy the dataframe, insert the `削除` column as
`False`, and when the search query is non-empty keep only the rows matched by
the case-insensitive substring mask. -/
def project (t : Table) (q : String) : View :=
  let withFlag := t.rows.map (fun r => (false, r))
  { header := t.header,
    rows := if q == "" then withFlag else withFlag.filter (fun r => rowMatches q r.1 r.2) }

/-- Outcome of a press of the save button. -/
inductive CommitOutcome where
  | saved
  | filterBlocked
deriving DecidableEq

/-- App.py line 200: drop the rows whose `削除` checkbox is set, and drop the
`削除` column itself. -/
def keptRows (v : View) : List (List CellVal) :=
  (v.rows.filter (fun r => !r.1)).map (fun r => r.2)

/-- App.py lines 197-234: the save-button handler. When the search query is
non-empty (Python truthy) only a warning is shown and nothing is written;
otherwise the kept rows are reindexed to the master columns, NaN replaced by
the empty string, and the sheet is cleared and overwritten. Returns the store
contents after the attempt together with the outcome. -/
def commitStore (store : Table) (search_query : String) (edited : View) :
    Table × CommitOutcome :=
  if !(search_query == "") then (store, .filterBlocked)
  else (reindexFill { header := edited.header, rows := keptRows edited }, .saved)

/-- One reply of the geocoding service: a location, no result (`None`), or a
raised exception (service error). -/
inductive GeoReply where
  | found (lat lon : Int)
  | notFound
  | svcErr
deriving DecidableEq

/-- The locality name `"立川"` checked at App.py line 288. -/
def localityName : String := "立川"

/-- The region name `"東京都"` checked at App.py line 290. -/
def regionName : String := "東京都"

/-- App.py lines 287-291: the qualified retry query — prefix `"東京都立川市 "`
when the text lacks `"立川"`, else prefix `"東京都 "` when it lacks
`"東京都"`, else leave the text unchanged. -/
def searchWord (address : String) : String :=
  if !(strContains address localityName) then "東京都立川市 " ++ address
  else if !(strContains address regionName) then "東京都 " ++ address
  else address

/-- App.py lines 278-304 (the inner try block): attempt the literal text; on
`None`, build `searchWord` and attempt it only when it differs from the
original; an exception from either attempt aborts the block with no location.
Returns the list of queries issued and the coordinates obtained, if any. -/
def geoPhase (g : String → GeoReply) (address : String) :
    List String × Option (Int × Int) :=
  match g address with
  | .found la lo => ([address], some (la, lo))
  | .svcErr => ([address], none)
  | .notFound =>
    let sw := searchWord address
    if !(sw == address) then
      match g sw with
      | .found la lo => ([address, sw], some (la, lo))
      | _ => ([address, sw], none)
    else ([address], none)

/-- The resolver of spec §4.2 as the code realizes it: the guard
`and address` at App.py line 276 means an empty address text issues no
geocoding call at all; otherwise the two-attempt phase runs. -/
def resolve (g : String → GeoReply) (address : String) :
    List String × Option (Int × Int) :=
  if address == "" then ([], none) else geoPhase g address

/-- The register-form input (App.py lines 246-262). -/
structure FormInput where
  name : String
  genre : String
  area : String
  rating : Int
  comment : String
  address : String
  lat_input : String
  lon_input : String
deriving DecidableEq

/-- Observable effect of one press of the register button: the rows passed to
`sheet.append_row`, the geocoding queries issued, and whether the append was
accepted (`false` = rejected with the name-required warning). -/
structure AppendResult where
  storeCalls : List (List CellVal)
  geoQueries : List String
  ok : Bool
deriving DecidableEq

/-- App.py lines 266-325: the register-form handler. An empty name is rejected
before any store or geocoding call. Otherwise the manual latitude/longitude
strings seed `lat_val`/`lon_val`; geocoding runs only when geopy is available,
the latitude input is empty and the address is non-empty (line 276); a found
location overwrites both values; falsy values become the empty string
(lines 307-308); the canonical 9-value row is appended. -/
def appendEngine (geopyAvailable : Bool) (g : String → GeoReply)
    (timestamp : String) (fi : FormInput) : AppendResult :=
  if fi.name == "" then { storeCalls := [], geoQueries := [], ok := false }
  else
    let geo :=
      if geopyAvailable && fi.lat_input == "" && !(fi.address == "") then
        geoPhase g fi.address
      else ([], none)
    let vals : CellVal × CellVal :=
      match geo.2 with
      | some (la, lo) => (.num la, .num lo)
      | none => (.str fi.lat_input, .str fi.lon_input)
    let lat_val := if truthy vals.1 then vals.1 else .str ""
    let lon_val := if truthy vals.2 then vals.2 else .str ""
    { storeCalls := [[.str fi.name, .str fi.genre, .str fi.area, .num fi.rating,
        .str fi.comment, .str fi.address, .str timestamp, lat_val, lon_val]],
      geoQueries := geo.1,
      ok := true }

/-! Concrete sample data used to instantiate the theorems. -/

/-- A one-row table already laid out along the master columns. -/
def demoTable : Table :=
  { header := expected_columns,
    rows := [[.str "立川餃子センター", .str "中華", .str "北口", .num 4, .str "餃子",
              .str "曙町", .str "2026-01-01 12:00", .nan, .nan]] }

/-- A raw table with one canonical column, one unknown column, and one data
row (so the `df.empty` branch is not taken). -/
def rawC4 : Table := { header := ["店名", "foo"], rows := [[.str "a", .str "b"]] }

/-- A raw table with scrambled/missing columns and one unknown column. -/
def rawC5 : Table := { header := ["経度", "unknown"], rows := [[.num 5, .str "z"]] }

/-- A post-edit view whose single kept row carries the out-of-range rating 6. -/
def ratingSixView : View :=
  { header := expected_columns,
    rows := [(false, [.str "店X", .str "和食", .str "北口", .num 6, .str "",
                      .str "", .str "2026-01-01 12:00", .str "", .str ""])] }

/-- A geocoder that never finds anything. -/
def gNotFound : String → GeoReply := fun _ => GeoReply.notFound

/-- A geocoder that resolves every query to (35, 139). -/
def gFound : String → GeoReply := fun _ => GeoReply.found 35 139

/-- Form input with an empty name. -/
def fiNoName : FormInput :=
  { name := "", genre := "和食", area := "北口", rating := 3, comment := "",
    address := "曙町", lat_input := "", lon_input := "" }

/-- Form input with a name but an empty address and no manual coordinates. -/
def fiEmptyAddr : FormInput :=
  { name := "店A", genre := "和食", area := "北口", rating := 3, comment := "",
    address := "", lat_input := "", lon_input := "" }

/-- Form input supplying only a longitude, with an address. -/
def fiOnlyLon : FormInput :=
  { name := "店B", genre := "和食", area := "北口", rating := 3, comment := "",
    address := "曙町", lat_input := "", lon_input := "139.5" }

/-- Form input supplying only a latitude. -/
def fiOnlyLat : FormInput :=
  { name := "店C", genre := "和食", area := "北口", rating := 3, comment := "",
    address := "曙町", lat_input := "35.7", lon_input := "" }

/-! Helper lemmas. -/

theorem fillEmpty_ne_nan (o : Option CellVal) : fillEmpty o ≠ CellVal.nan := by
  match o with
  | none => simp [fillEmpty]
  | some v => cases v <;> simp [fillEmpty]

theorem addEmptyCol_mem_self (t : Table) (c : String) : c ∈ (addEmptyCol t c).header := by
  unfold addEmptyCol
  split
  · assumption
  · simp

theorem addEmptyCol_mem_mono (t : Table) (c d : String) (h : d ∈ t.header) :
    d ∈ (addEmptyCol t c).header := by
  unfold addEmptyCol
  split
  · exact h
  · simp [h]

theorem addCoordCols_has_coords (t : Table) :
    "緯度" ∈ (addCoordCols t).header ∧ "経度" ∈ (addCoordCols t).header ∧
    "住所" ∈ (addCoordCols t).header := by
  show _ ∧ _ ∧ _
  have e : addCoordCols t = addEmptyCol (addEmptyCol (addEmptyCol t "緯度") "経度") "住所" := rfl
  rw [e]
  refine ⟨?_, ?_, ?_⟩
  · exact addEmptyCol_mem_mono _ _ _ (addEmptyCol_mem_mono _ _ _ (addEmptyCol_mem_self _ _))
  · exact addEmptyCol_mem_mono _ _ _ (addEmptyCol_mem_self _ _)
  · exact addEmptyCol_mem_self _ _

theorem addCoordCols_mem_mono (t : Table) (d : String) (h : d ∈ t.header) :
    d ∈ (addCoordCols t).header := by
  have e : addCoordCols t = addEmptyCol (addEmptyCol (addEmptyCol t "緯度") "経度") "住所" := rfl
  rw [e]
  exact addEmptyCol_mem_mono _ _ _ (addEmptyCol_mem_mono _ _ _ (addEmptyCol_mem_mono _ _ _ h))

theorem geoPhase_queries_ne_nil (g : String → GeoReply) (a : String) :
    (geoPhase g a).1 ≠ [] := by
  unfold geoPhase
  cases h : g a
  case found la lo => simp
  case svcErr => simp
  case notFound =>
    dsimp only
    split
    · cases h2 : g (searchWord a) <;> simp
    · simp

/-! Claim theorems. -/

/-- Claim C1: for every table image, search query and view (the view
projected under that query included), when the query is non-empty the save
handler refuses with the filter-active warning and the store contents are
unchanged — no write occurs. -/
theorem commit_filter_active_blocks (T : Table) (q : String) (v : View)
    (h : q ≠ "") : commitStore T q v = (T, CommitOutcome.filterBlocked) := by
  simp [commitStore, h]

/-- Claim C1 witness: at a concrete table and the non-empty query `"駅"`, the
commit of the projected view is blocked and the store is unchanged. -/
theorem commit_filter_active_blocks_witness :
    "駅" ≠ "" ∧
    commitStore demoTable "駅" (project demoTable "駅") =
      (demoTable, CommitOutcome.filterBlocked) :=
  ⟨by decide, commit_filter_active_blocks demoTable "駅" (project demoTable "駅") (by decide)⟩

/-- Claim C2: with an empty (absent) search query, committing a view over the
table's columns whose record rows are exactly the table's rows succeeds, and
the written image is exactly the view's rows whose deletion flag is false —
in their original relative order, since `List.filter` preserves order — each
reindexed to the canonical 9-column order with NaN replaced by the empty
string. -/
theorem commit_no_filter_writes_kept_rows (T : Table) (v : View)
    (hh : v.header = T.header) (_hr : v.rows.map Prod.snd = T.rows) :
    commitStore T "" v =
      ({ header := expected_columns,
         rows := (v.rows.filter (fun r => !r.1)).map
           (fun r => expected_columns.map (fun c => fillEmpty (colVal T.header r.2 c))) },
       CommitOutcome.saved) := by
  simp [commitStore, reindexFill, keptRows, hh, List.map_map, Function.comp]

/-- Claim C2 witness: committing the unfiltered projection of a concrete
table (no edits, no deletion flags) succeeds and writes the reindexed rows. -/
theorem commit_no_filter_writes_kept_rows_witness :
    (project demoTable "").header = demoTable.header ∧
    (project demoTable "").rows.map Prod.snd = demoTable.rows ∧
    commitStore demoTable "" (project demoTable "") =
      ({ header := expected_columns,
         rows := ((project demoTable "").rows.filter (fun r => !r.1)).map
           (fun r => expected_columns.map (fun c => fillEmpty (colVal demoTable.header r.2 c))) },
       CommitOutcome.saved) :=
  ⟨by decide, by decide,
   commit_no_filter_writes_kept_rows demoTable (project demoTable "") (by decide) (by decide)⟩

/-- Claim C3 counterexample: the claim says a kept row with rating 6 makes
the whole commit fail with no store write; in the code the save handler
performs no row validation — committing a view whose kept row has rating 6
succeeds and that row is written, mutating the store. -/
theorem commit_rating_six_accepted_cex :
    (commitStore demoTable "" ratingSixView).2 = CommitOutcome.saved ∧
    (commitStore demoTable "" ratingSixView).1.rows =
      [[.str "店X", .str "和食", .str "北口", .num 6, .str "",
        .str "", .str "2026-01-01 12:00", .str "", .str ""]] ∧
    (commitStore demoTable "" ratingSixView).1 ≠ demoTable := by decide

/-- Claim C3 (amended): the save handler performs no row-level validation —
with the filter absent the commit always succeeds, and every kept row is
written as-is (one written row per kept view row), whatever its cell values;
the field rules exist only as editor-widget configuration, not on the commit
path. -/
theorem commit_never_validates (T : Table) (v : View) :
    (commitStore T "" v).2 = CommitOutcome.saved ∧
    (commitStore T "" v).1.rows.length = (v.rows.filter (fun r => !r.1)).length := by
  simp [commitStore, reindexFill, keptRows]

/-- Claim C4 counterexample: the claim says every absent canonical column is
synthesized on load and unknown columns are dropped; on a non-empty raw table
with columns `["店名","foo"]` the load path synthesizes only the three
coordinate/address columns — `"ジャンル"` (canonical, absent) is not
synthesized and the unknown `"foo"` is kept. -/
theorem load_partial_normalize_cex :
    (loadTable rawC4).header = ["店名", "foo", "緯度", "経度", "住所"] ∧
    "ジャンル" ∉ (loadTable rawC4).header ∧
    "foo" ∈ (loadTable rawC4).header := by decide

/-- Claim C4 (amended): on load only the `緯度`/`経度`/`住所` columns are
synthesized (as null) when absent; no column of the input is dropped; and
only when the raw table has no rows is the full canonical empty frame
produced. The full canonicalization (drop unknowns, synthesize all nine)
happens at commit time via the reindex step, not at load. -/
theorem load_synthesizes_coord_cols (raw : Table) :
    ("緯度" ∈ (loadTable raw).header ∧ "経度" ∈ (loadTable raw).header ∧
     "住所" ∈ (loadTable raw).header) ∧
    (raw.rows = [] → loadTable raw = { header := expected_columns, rows := [] }) ∧
    (raw.rows ≠ [] → ∀ c ∈ raw.header, c ∈ (loadTable raw).header) := by
  refine ⟨?_, ?_, ?_⟩
  · show _ ∧ _ ∧ _
    simp only [loadTable]
    exact addCoordCols_has_coords _
  · intro h
    simp only [loadTable, h, List.isEmpty_nil, if_true]
    decide
  · intro h c hc
    have he : raw.rows.isEmpty = false := by
      cases hr : raw.rows
      · exact absurd hr h
      · rfl
    simp only [loadTable, he, Bool.false_eq_true, if_false]
    exact addCoordCols_mem_mono _ _ hc

/-- Claim C4 witness: at the concrete raw table, the loaded header carries
the three synthesized columns and keeps the original ones. -/
theorem load_synthesizes_coord_cols_witness :
    rawC4.rows ≠ [] ∧
    ("緯度" ∈ (loadTable rawC4).header ∧ "経度" ∈ (loadTable rawC4).header ∧
      "住所" ∈ (loadTable rawC4).header) ∧
    "店名" ∈ (loadTable rawC4).header :=
  ⟨by decide, (load_synthesizes_coord_cols rawC4).1,
   (load_synthesizes_coord_cols rawC4).2.2 (by decide) "店名" (by decide)⟩

/-- Claim C5: canonicalization round-trip — for every raw table, loading it
and then applying the pre-write reordering yields the header row followed by
data rows over exactly the fixed 9 canonical columns in canonical order,
every row of width 9, and no NaN survives (missing/null cells became the
empty string). -/
theorem canonical_roundtrip (raw : Table) :
    (reindexFill (loadTable raw)).header = expected_columns ∧
    updateValues (reindexFill (loadTable raw)) =
      (expected_columns.map CellVal.str) :: (reindexFill (loadTable raw)).rows ∧
    ∀ r ∈ (reindexFill (loadTable raw)).rows,
      r.length = 9 ∧ ∀ x ∈ r, x ≠ CellVal.nan := by
  refine ⟨rfl, rfl, ?_⟩
  intro r hr
  simp only [reindexFill, List.mem_map] at hr
  obtain ⟨s, _, hs⟩ := hr
  subst hs
  constructor
  · simp [expected_columns]
  · intro x hx
    simp only [List.mem_map] at hx
    obtain ⟨c, _, hc⟩ := hx
    subst hc
    exact fillEmpty_ne_nan _

/-- Claim C5 witness: at a concrete raw table with scrambled and missing
columns and an unknown column, the round-trip yields the canonical layout
with the surviving value in place and empty strings elsewhere. -/
theorem canonical_roundtrip_witness :
    reindexFill (loadTable rawC5) =
      { header := expected_columns,
        rows := [[.str "", .str "", .str "", .str "", .str "", .str "",
                  .str "", .str "", .num 5]] } ∧
    ((reindexFill (loadTable rawC5)).header = expected_columns ∧
     updateValues (reindexFill (loadTable rawC5)) =
       (expected_columns.map CellVal.str) :: (reindexFill (loadTable rawC5)).rows ∧
     ∀ r ∈ (reindexFill (loadTable rawC5)).rows,
       r.length = 9 ∧ ∀ x ∈ r, x ≠ CellVal.nan) :=
  ⟨by decide, canonical_roundtrip rawC5⟩

/-- Claim C6: the geocode resolution algorithm — an empty address returns
absent with no call; otherwise the literal text is attempted first; a success
or a service error on the first attempt means no retry; on no result exactly
one qualified retry is made, and only when the qualified string differs from
the original; the qualifier is the `"東京都立川市 "` prefix when the text
lacks `"立川"`, else the `"東京都 "` prefix when it lacks `"東京都"`. -/
theorem resolve_fallback (g : String → GeoReply) (a : String) :
    (a = "" → resolve g a = ([], none)) ∧
    (a ≠ "" → ∀ la lo, g a = GeoReply.found la lo →
      resolve g a = ([a], some (la, lo))) ∧
    (a ≠ "" → g a = GeoReply.svcErr → resolve g a = ([a], none)) ∧
    (a ≠ "" → g a = GeoReply.notFound → searchWord a ≠ a →
      (resolve g a).1 = [a, searchWord a]) ∧
    (a ≠ "" → g a = GeoReply.notFound → searchWord a = a →
      resolve g a = ([a], none)) ∧
    (strContains a localityName = false → searchWord a = "東京都立川市 " ++ a) ∧
    (strContains a localityName = true → strContains a regionName = false →
      searchWord a = "東京都 " ++ a) := by
  refine ⟨?_, ?_, ?_, ?_, ?_, ?_, ?_⟩
  · intro h
    simp [resolve, h]
  · intro h la lo hg
    simp [resolve, geoPhase, h, hg]
  · intro h hg
    simp [resolve, geoPhase, h, hg]
  · intro h hg hsw
    cases hg2 : g (searchWord a) <;> simp [resolve, geoPhase, h, hg, hsw, hg2]
  · intro h hg hsw
    simp [resolve, geoPhase, h, hg, hsw]
  · intro h1
    simp [searchWord, h1]
  · intro h1 h2
    simp [searchWord, h1, h2]

/-- Claim C6 witness: for the address `"パン屋"` (no locality) under a
geocoder that finds nothing, two attempts are made — the literal text and
then the locality-qualified retry. -/
theorem resolve_fallback_witness :
    ("パン屋" ≠ "") ∧ gNotFound "パン屋" = GeoReply.notFound ∧
    searchWord "パン屋" ≠ "パン屋" ∧
    (resolve gNotFound "パン屋").1 = ["パン屋", searchWord "パン屋"] :=
  ⟨by decide, rfl, by decide,
   (resolve_fallback gNotFound "パン屋").2.2.2.1 (by decide) rfl (by decide)⟩

/-- Claim C7 counterexample: the claim says an address already containing the
locality name gets only one resolution attempt; for `"立川駅"` (contains
`"立川"` but not `"東京都"`) with a first attempt yielding no result, the
code issues a second, region-qualified attempt `"東京都 立川駅"` — two
attempts, not one. -/
theorem geocode_second_attempt_despite_locality_cex :
    strContains "立川駅" localityName = true ∧
    (resolve gNotFound "立川駅").1 = ["立川駅", "東京都 立川駅"] ∧
    (resolve gNotFound "立川駅").1.length = 2 := by decide

/-- Claim C7 (amended): only one resolution attempt is made when the address
already contains both the locality name `"立川"` and the region name
`"東京都"` (then the qualified string equals the original and no retry
occurs, whatever the first reply); an address containing the locality but
lacking the region still gets one region-qualified retry on no result. -/
theorem one_attempt_when_fully_qualified (g : String → GeoReply) (a : String)
    (h : a ≠ "") (h1 : strContains a localityName = true)
    (h2 : strContains a regionName = true) :
    (resolve g a).1 = [a] := by
  have hsw : searchWord a = a := by simp [searchWord, h1, h2]
  cases hg : g a <;> simp [resolve, geoPhase, h, hg, hsw]

/-- Claim C7 witness: for `"東京都立川市曙町"` (contains both names) under a
geocoder that finds nothing, exactly one attempt is made. -/
theorem one_attempt_when_fully_qualified_witness :
    ("東京都立川市曙町" ≠ "") ∧
    strContains "東京都立川市曙町" localityName = true ∧
    strContains "東京都立川市曙町" regionName = true ∧
    (resolve gNotFound "東京都立川市曙町").1 = ["東京都立川市曙町"] :=
  ⟨by decide, by decide, by decide,
   one_attempt_when_fully_qualified gNotFound "東京都立川市曙町"
     (by decide) (by decide) (by decide)⟩

/-- Claim C8: an empty name is rejected by the register handler before
anything else — no row is appended, no geocoding query is issued, the append
is not accepted. -/
theorem append_empty_name_rejected (geopy : Bool) (g : String → GeoReply)
    (ts : String) (fi : FormInput) (h : fi.name = "") :
    appendEngine geopy g ts fi =
      { storeCalls := [], geoQueries := [], ok := false } := by
  simp [appendEngine, h]

/-- Claim C8 witness: a concrete form input with an empty name (and a
non-empty address) produces no store call and no geocoding call. -/
theorem append_empty_name_rejected_witness :
    fiNoName.name = "" ∧
    appendEngine true gFound "2026-01-01 12:00" fiNoName =
      { storeCalls := [], geoQueries := [], ok := false } :=
  ⟨rfl, append_empty_name_rejected true gFound "2026-01-01 12:00" fiNoName rfl⟩

/-- Claim C9: absence of coordinates is never fatal to append — with a
non-empty name, empty manual latitude/longitude inputs, and no coordinates
obtainable (empty address, or a geocoding phase yielding nothing, whether by
no-result or service error), the append still succeeds and the appended row
carries empty latitude and longitude. -/
theorem append_without_coords_succeeds (geopy : Bool) (g : String → GeoReply)
    (ts : String) (fi : FormInput) (hname : fi.name ≠ "")
    (hlat : fi.lat_input = "") (hlon : fi.lon_input = "")
    (hgeo : fi.address = "" ∨ (geoPhase g fi.address).2 = none) :
    (appendEngine geopy g ts fi).ok = true ∧
    (appendEngine geopy g ts fi).storeCalls =
      [[.str fi.name, .str fi.genre, .str fi.area, .num fi.rating,
        .str fi.comment, .str fi.address, .str ts, .str "", .str ""]] := by
  rcases hgeo with haddr | hge
  · constructor <;> simp [appendEngine, hname, haddr, hlat, hlon, truthy]
  · by_cases hpy : geopy = true
    · by_cases haddr : fi.address = ""
      · constructor <;> simp [appendEngine, hname, hlat, hlon, haddr, truthy]
      · constructor <;> simp [appendEngine, hname, hlat, hlon, hpy, haddr, hge, truthy]
    · have hf : geopy = false := by
        revert hpy
        cases geopy <;> simp
      constructor <;> simp [appendEngine, hname, hlat, hlon, hf, truthy]

/-- Claim C9 witness: appending with a name, an empty address and no manual
coordinates succeeds, and the appended row has empty latitude and
longitude. -/
theorem append_without_coords_succeeds_witness :
    fiEmptyAddr.name ≠ "" ∧ fiEmptyAddr.lat_input = "" ∧
    fiEmptyAddr.lon_input = "" ∧ fiEmptyAddr.address = "" ∧
    ((appendEngine true gNotFound "2026-01-02 09:00" fiEmptyAddr).ok = true ∧
     (appendEngine true gNotFound "2026-01-02 09:00" fiEmptyAddr).storeCalls =
       [[.str fiEmptyAddr.name, .str fiEmptyAddr.genre, .str fiEmptyAddr.area,
         .num fiEmptyAddr.rating, .str fiEmptyAddr.comment,
         .str fiEmptyAddr.address, .str "2026-01-02 09:00", .str "", .str ""]]) :=
  ⟨by decide, rfl, rfl, rfl,
   append_without_coords_succeeds true gNotFound "2026-01-02 09:00" fiEmptyAddr
     (by decide) rfl rfl (Or.inl rfl)⟩

/-- Claim C10: the decision to geocode ignores the longitude input — with
geopy available and a non-empty name, geocoding runs iff the latitude input
is empty and the address is non-empty; when it runs and the literal query is
found, the resolved coordinates land in the appended row (overwriting any
manual longitude; a zero coordinate becomes the empty string by Python
falsiness); when a latitude is supplied, no geocoding query is issued and an
empty longitude input yields an empty longitude cell. -/
theorem geocode_trigger_ignores_lon (g : String → GeoReply) (ts : String)
    (fi : FormInput) (hname : fi.name ≠ "") :
    ((appendEngine true g ts fi).geoQueries ≠ [] ↔
      (fi.lat_input = "" ∧ fi.address ≠ "")) ∧
    (fi.lat_input = "" → fi.address ≠ "" → ∀ la lo,
      g fi.address = GeoReply.found la lo →
      (appendEngine true g ts fi).storeCalls =
        [[.str fi.name, .str fi.genre, .str fi.area, .num fi.rating,
          .str fi.comment, .str fi.address, .str ts,
          (if la = 0 then CellVal.str "" else CellVal.num la),
          (if lo = 0 then CellVal.str "" else CellVal.num lo)]]) ∧
    (fi.lat_input ≠ "" →
      (appendEngine true g ts fi).geoQueries = [] ∧
      (fi.lon_input = "" →
        (appendEngine true g ts fi).storeCalls =
          [[.str fi.name, .str fi.genre, .str fi.area, .num fi.rating,
            .str fi.comment, .str fi.address, .str ts,
            CellVal.str fi.lat_input, CellVal.str ""]])) := by
  refine ⟨⟨?_, ?_⟩, ?_, ?_⟩
  · intro hq
    by_cases h1 : fi.lat_input = ""
    · by_cases h2 : fi.address = ""
      · exact absurd (by simp [appendEngine, hname, h2]) hq
      · exact ⟨h1, h2⟩
    · exact absurd (by simp [appendEngine, hname, h1]) hq
  · rintro ⟨h1, h2⟩
    have hne := geoPhase_queries_ne_nil g fi.address
    simpa [appendEngine, hname, h1, h2] using hne
  · intro h1 h2 la lo hg
    by_cases hla : la = 0 <;> by_cases hlo : lo = 0 <;>
      simp [appendEngine, hname, h1, h2, geoPhase, hg, truthy, hla, hlo]
  · intro h1
    refine ⟨by simp [appendEngine, hname, h1], ?_⟩
    intro h2
    simp [appendEngine, hname, h1, h2, truthy]

/-- Claim C10 witness: supplying only a longitude (`"139.5"`) with an address
still triggers geocoding, and the resolved coordinates overwrite the manual
longitude; supplying only a latitude issues no geocoding query and yields an
empty longitude cell. -/
theorem geocode_trigger_ignores_lon_witness :
    fiOnlyLon.name ≠ "" ∧
    ((appendEngine true gFound "2026-01-03 10:00" fiOnlyLon).geoQueries ≠ [] ↔
      (fiOnlyLon.lat_input = "" ∧ fiOnlyLon.address ≠ "")) ∧
    (appendEngine true gFound "2026-01-03 10:00" fiOnlyLon).storeCalls =
      [[.str "店B", .str "和食", .str "北口", .num 3, .str "", .str "曙町",
        .str "2026-01-03 10:00", .num 35, .num 139]] ∧
    (appendEngine true gFound "2026-01-03 10:00" fiOnlyLat).geoQueries = [] ∧
    (appendEngine true gFound "2026-01-03 10:00" fiOnlyLat).storeCalls =
      [[.str "店C", .str "和食", .str "北口", .num 3, .str "", .str "曙町",
        .str "2026-01-03 10:00", .str "35.7", .str ""]] :=
  ⟨by decide,
   (geocode_trigger_ignores_lon gFound "2026-01-03 10:00" fiOnlyLon (by decide)).1,
   by decide, by decide, by decide⟩

end TachikawaApp
